import Mathlib

/-
Verification of the go-objstore Python SDK (objstore package): a shallow
embedding of the error taxonomy (exceptions.py), the data model (models.py),
the REST adapter (rest_client.py), the gRPC adapter (grpc_client.py), the
QUIC adapter (quic_client.py) and the sync/async bridge (client.py), with
theorems settling the frozen claims about retry, error mapping, streaming,
lifecycle-policy defaulting and the exists/delete contracts.
-/

namespace ObjStore

/-- The closed error-kind set realized by the exception classes of
objstore/exceptions.py. `base` is the generic ObjectStoreError class itself;
the other kinds are its subclasses. -/
inductive ErrKind where
  | base
  | notFound
  | connection
  | authentication
  | validation
  | server
  | timeout
  deriving DecidableEq, Repr

/-- A raised objstore exception: its class (kind), its message, and the
optional HTTP status code stored on it (exceptions.py). -/
structure ObjError where
  kind : ErrKind
  message : String
  statusCode : Option Nat := none
  deriving DecidableEq, Repr

/-- ObjectNotFoundError(key): message "Object not found: {key}", status 404. -/
def objectNotFoundError (key : String) : ObjError :=
  { kind := ErrKind.notFound, message := "Object not found: " ++ key, statusCode := some 404 }

/-- AuthenticationError(message): status 401. -/
def authenticationError (m : String) : ObjError :=
  { kind := ErrKind.authentication, message := m, statusCode := some 401 }

/-- ValidationError(message): status 400. -/
def validationError (m : String) : ObjError :=
  { kind := ErrKind.validation, message := m, statusCode := some 400 }

/-- ServerError(message, status_code). -/
def serverError (m : String) (sc : Option Nat) : ObjError :=
  { kind := ErrKind.server, message := m, statusCode := sc }

/-- TimeoutError(message). -/
def timeoutError (m : String) : ObjError :=
  { kind := ErrKind.timeout, message := m, statusCode := none }

/-- ConnectionError(message). -/
def connectionError (m : String) : ObjError :=
  { kind := ErrKind.connection, message := m, statusCode := none }

/-- The base ObjectStoreError(message, status_code) raised directly. -/
def objectStoreError (m : String) (sc : Option Nat) : ObjError :=
  { kind := ErrKind.base, message := m, statusCode := sc }

/-- The JSON envelope of an HTTP response body, as the adapters read it:
response.json().get("message", ...) and result.get("data", ...).get("etag").
`none` fields model absent keys. -/
structure RespJson where
  message : Option String := none
  dataEtag : Option String := none
  deriving DecidableEq, Repr

/-- An HTTP response as observed by the REST/QUIC adapters: status code, raw
body text, the parsed JSON envelope (`none` when the body does not parse as
JSON), the headers the adapters read, and the raw body bytes. -/
structure HttpResponse where
  status : Nat
  text : String := ""
  json : Option RespJson := none
  contentType : Option String := none
  contentLength : Option Nat := none
  etag : Option String := none
  body : List Nat := []
  deriving DecidableEq, Repr

/-- The message extraction shared by the 400 and >= 500 branches of
RestClient._handle_error: try response.json().get("message", default),
falling back to `response.text or default` when the body is not JSON. -/
def errMessage (r : HttpResponse) (dflt : String) : String :=
  match r.json with
  | some j => j.message.getD dflt
  | none => if r.text = "" then dflt else r.text

/-- RestClient._handle_error (rest_client.py lines 80-111): 404 to
ObjectNotFoundError, 401 to AuthenticationError, 400 to ValidationError,
>= 500 to ServerError, and every other status to the base ObjectStoreError
with message "HTTP {status}: {text}". -/
def restHandleError (r : HttpResponse) : ObjError :=
  if r.status = 404 then objectNotFoundError "Object not found"
  else if r.status = 401 then authenticationError "Authentication failed"
  else if r.status = 400 then validationError (errMessage r "Validation error")
  else if 500 ≤ r.status then serverError (errMessage r "Server error") (some r.status)
  else objectStoreError ("HTTP " ++ toString r.status ++ ": " ++ r.text) (some r.status)

/-- QuicClient._handle_error (quic_client.py lines 99-130): textually the
same mapping as RestClient._handle_error. -/
def quicHandleError (r : HttpResponse) : ObjError :=
  if r.status = 404 then objectNotFoundError "Object not found"
  else if r.status = 401 then authenticationError "Authentication failed"
  else if r.status = 400 then validationError (errMessage r "Validation error")
  else if 500 ≤ r.status then serverError (errMessage r "Server error") (some r.status)
  else objectStoreError ("HTTP " ++ toString r.status ++ ": " ++ r.text) (some r.status)

/-- grpc.StatusCode: the full status enum of the gRPC library. -/
inductive GrpcStatusCode where
  | OK
  | CANCELLED
  | UNKNOWN
  | INVALID_ARGUMENT
  | DEADLINE_EXCEEDED
  | NOT_FOUND
  | ALREADY_EXISTS
  | PERMISSION_DENIED
  | RESOURCE_EXHAUSTED
  | FAILED_PRECONDITION
  | ABORTED
  | OUT_OF_RANGE
  | UNIMPLEMENTED
  | INTERNAL
  | UNAVAILABLE
  | DATA_LOSS
  | UNAUTHENTICATED
  deriving DecidableEq, Repr

/-- GrpcClient._handle_grpc_error (grpc_client.py lines 739-760): NOT_FOUND,
DEADLINE_EXCEEDED, UNAVAILABLE and INTERNAL map to the four specific kinds;
every other status code raises the base ObjectStoreError with message
"gRPC error: {details}". -/
def grpcHandleError (code : GrpcStatusCode) (details : String) : ObjError :=
  match code with
  | GrpcStatusCode.NOT_FOUND => objectNotFoundError details
  | GrpcStatusCode.DEADLINE_EXCEEDED => timeoutError details
  | GrpcStatusCode.UNAVAILABLE => connectionError details
  | GrpcStatusCode.INTERNAL => serverError details none
  | _ => objectStoreError ("gRPC error: " ++ details) none

/-- Object metadata (models.py Metadata): every field optional, custom
metadata a string map; `none` means the field is absent. -/
structure Metadata where
  content_type : Option String := none
  content_encoding : Option String := none
  size : Option Int := none
  last_modified : Option Int := none
  etag : Option String := none
  custom : List (String × String) := []
  deriving DecidableEq, Repr

/-- PutResponse (models.py). -/
structure PutResponse where
  success : Bool
  message : Option String := none
  etag : Option String := none
  deriving DecidableEq, Repr

/-- DeleteResponse (models.py). -/
structure DeleteResponse where
  success : Bool
  message : Option String := none
  deriving DecidableEq, Repr

/-- ExistsResponse (models.py); Lean does not allow the source field name
so the boolean field is called exists_flag here. -/
structure ExistsResponse where
  exists_flag : Bool
  deriving DecidableEq, Repr

/-- One transport attempt as the REST/QUIC adapters observe it: a response
came back, or the request timed out (requests.exceptions.Timeout /
httpx.TimeoutException), or the connection failed
(requests.exceptions.ConnectionError / httpx.ConnectError). -/
inductive HttpAttempt where
  | response (r : HttpResponse)
  | timedOut
  | connFailed (msg : String)
  deriving DecidableEq, Repr

/-- The attempt loop of the tenacity retry decorator, counting attempts from
`i` with `fuel` further attempts allowed after the current one: a successful
attempt returns at once; a raised exception of any kind is retried while
attempts remain, and with reraise=True the exception of the last attempt is the
one reraised. -/
def retryFrom (op : Nat → Except ObjError α) (i : Nat) : Nat → Except ObjError α
  | 0 => op i
  | Nat.succ fuel =>
    match op i with
    | Except.ok v => Except.ok v
    | Except.error _ => retryFrom op (i + 1) fuel

/-- The decorator `retry(stop=stop_after_attempt(3), wait=wait_exponential(...),
reraise=True)` applied to every public method of RestClient: up to 3 attempts,
any exception retried, final exception reraised. -/
def tenacityRetry (op : Nat → Except ObjError α) : Except ObjError α :=
  retryFrom op 0 2

/-- One execution of the RestClient.put body (rest_client.py lines 118-173):
201 parses the JSON envelope into a successful PutResponse; any other status
goes through _handle_error; transport failures map to TimeoutError /
ConnectionError. -/
def rest_put_once (a : HttpAttempt) : Except ObjError PutResponse :=
  match a with
  | HttpAttempt.timedOut => Except.error (timeoutError "Request timed out")
  | HttpAttempt.connFailed m => Except.error (connectionError ("Connection failed: " ++ m))
  | HttpAttempt.response r =>
    if r.status = 201 then
      Except.ok
        { success := true
        , message := some ((r.json.getD {}).message.getD "Object uploaded successfully")
        , etag := (r.json.getD {}).dataEtag }
    else Except.error (restHandleError r)

/-- RestClient.put as called: the body wrapped in the tenacity retry
decorator, attempt `i` seeing transport outcome `attempts i`. -/
def rest_put (attempts : Nat → HttpAttempt) : Except ObjError PutResponse :=
  tenacityRetry (fun i => rest_put_once (attempts i))

/-- Whether the second character list is an initial segment of the first. -/
def charsStartWith : List Char → List Char → Bool
  | _, [] => true
  | [], _ :: _ => false
  | a :: s, b :: p => (a == b) && charsStartWith s p

/-- Substring test over character lists, modelling the Python membership
test of pat in s. -/
def charsContain (pat : List Char) : List Char → Bool
  | [] => charsStartWith [] pat
  | c :: rest => charsStartWith (c :: rest) pat || charsContain pat rest

/-- Substring test used to model the Python membership test of pat in s. -/
def strContainsSub (s pat : String) : Bool :=
  charsContain pat.data s.data

/-- The lowercasing message.lower() performs, over the character list. -/
def lowerChars (s : String) : List Char :=
  s.data.map Char.toLower

/-- The inspection RestClient.delete performs on a 500 response
(rest_client.py lines 276-284): parse the JSON body, lowercase its
"message" field (default ""), and test whether it contains "not found" or
"does not exist"; a body that does not parse as JSON fails the test. -/
def deleteLooksNotFound (r : HttpResponse) : Bool :=
  match r.json with
  | some j =>
    let m := lowerChars (j.message.getD "")
    charsContain "not found".data m || charsContain "does not exist".data m
  | none => false

/-- One execution of the RestClient.delete body (rest_client.py lines
252-292): 200 is a successful DeleteResponse; a 500 whose JSON message
mentions "not found" or "does not exist" is rewritten to
ObjectNotFoundError; everything else goes through _handle_error. -/
def rest_delete_once (a : HttpAttempt) : Except ObjError DeleteResponse :=
  match a with
  | HttpAttempt.timedOut => Except.error (timeoutError "Request timed out")
  | HttpAttempt.connFailed m => Except.error (connectionError ("Connection failed: " ++ m))
  | HttpAttempt.response r =>
    if r.status = 200 then
      Except.ok
        { success := true
        , message := some ((r.json.getD {}).message.getD "Object deleted successfully") }
    else if r.status = 500 ∧ deleteLooksNotFound r then
      Except.error (objectNotFoundError "Object not found")
    else Except.error (restHandleError r)

/-- One execution of the RestClient.exists body (rest_client.py lines
366-387): a HEAD request; any response at all yields ExistsResponse with
the flag `status == 200` and no error; only transport failures raise. -/
def rest_exists_once (a : HttpAttempt) : Except ObjError ExistsResponse :=
  match a with
  | HttpAttempt.timedOut => Except.error (timeoutError "Request timed out")
  | HttpAttempt.connFailed m => Except.error (connectionError ("Connection failed: " ++ m))
  | HttpAttempt.response r => Except.ok { exists_flag := r.status == 200 }

/-- QuicClient.exists (quic_client.py lines 335-356): same shape as the REST
adapter, over httpx. -/
def quic_exists_once (a : HttpAttempt) : Except ObjError ExistsResponse :=
  match a with
  | HttpAttempt.timedOut => Except.error (timeoutError "Request timed out")
  | HttpAttempt.connFailed m => Except.error (connectionError ("Connection failed: " ++ m))
  | HttpAttempt.response r => Except.ok { exists_flag := r.status == 200 }

/-- RestClient.get (rest_client.py lines 180-206): on 200 return the body
bytes plus a Metadata built from the Content-Type header, the Content-Length
header with `int(headers.get("Content-Length", 0))` (absent header becomes
the integer 0), and the ETag header; other statuses go through
_handle_error. -/
def rest_get (a : HttpAttempt) : Except ObjError (List Nat × Metadata) :=
  match a with
  | HttpAttempt.timedOut => Except.error (timeoutError "Request timed out")
  | HttpAttempt.connFailed m => Except.error (connectionError ("Connection failed: " ++ m))
  | HttpAttempt.response r =>
    if r.status = 200 then
      Except.ok (r.body,
        { content_type := r.contentType
        , size := some (Int.ofNat (r.contentLength.getD 0))
        , etag := r.etag })
    else Except.error (restHandleError r)

/-- QuicClient.get (quic_client.py lines 181-207): same body handling as the
REST adapter, over httpx. -/
def quic_get (a : HttpAttempt) : Except ObjError (List Nat × Metadata) :=
  match a with
  | HttpAttempt.timedOut => Except.error (timeoutError "Request timed out")
  | HttpAttempt.connFailed m => Except.error (connectionError ("Connection failed: " ++ m))
  | HttpAttempt.response r =>
    if r.status = 200 then
      Except.ok (r.body,
        { content_type := r.contentType
        , size := some (Int.ofNat (r.contentLength.getD 0))
        , etag := r.etag })
    else Except.error (restHandleError r)

/-- The chunking of response.iter_content(chunk_size=n) /
response.aiter_bytes(chunk_size=n): the body split into successive chunks of
at most n bytes. -/
def chunksOf (n : Nat) (xs : List α) : List (List α) :=
  match xs with
  | [] => []
  | y :: ys =>
    if n = 0 then []
    else (y :: ys).take n :: chunksOf n ((y :: ys).drop n)
termination_by xs.length
decreasing_by
  rename_i h
  simp only [List.length_drop, List.length_cons]
  have hn : n ≠ 0 := h
  omega

/-- RestClient.get_stream (rest_client.py lines 218-245): on 200 yield the
8192-byte chunks of the body, skipping falsy (empty) chunks; other statuses
go through _handle_error. -/
def rest_get_stream (a : HttpAttempt) : Except ObjError (List (List Nat)) :=
  match a with
  | HttpAttempt.timedOut => Except.error (timeoutError "Request timed out")
  | HttpAttempt.connFailed m => Except.error (connectionError ("Connection failed: " ++ m))
  | HttpAttempt.response r =>
    if r.status = 200 then
      Except.ok ((chunksOf 8192 r.body).filter (fun c => !c.isEmpty))
    else Except.error (restHandleError r)

/-- QuicClient.get_stream (quic_client.py lines 214-240): aiter_bytes with
chunk_size 8192, empty chunks skipped; same shape as the REST adapter. -/
def quic_get_stream (a : HttpAttempt) : Except ObjError (List (List Nat)) :=
  match a with
  | HttpAttempt.timedOut => Except.error (timeoutError "Request timed out")
  | HttpAttempt.connFailed m => Except.error (connectionError ("Connection failed: " ++ m))
  | HttpAttempt.response r =>
    if r.status = 200 then
      Except.ok ((chunksOf 8192 r.body).filter (fun c => !c.isEmpty))
    else Except.error (restHandleError r)

/-- A protobuf Metadata message as grpc_client.py reads it: proto3 scalar
fields default to "" / 0, and last_modified is guarded by HasField. -/
structure ProtoMetadata where
  content_type : String := ""
  content_encoding : String := ""
  size : Int := 0
  etag : String := ""
  custom : List (String × String) := []
  last_modified : Option Int := none
  deriving DecidableEq, Repr

/-- GrpcClient._proto_to_metadata (grpc_client.py lines 114-136): falsy
proto fields ("" and 0) become absent (None) model fields. -/
def proto_to_metadata (pm : ProtoMetadata) : Metadata :=
  { content_type := if pm.content_type = "" then none else some pm.content_type
  , content_encoding := if pm.content_encoding = "" then none else some pm.content_encoding
  , size := if pm.size = 0 then none else some pm.size
  , etag := if pm.etag = "" then none else some pm.etag
  , custom := pm.custom
  , last_modified := pm.last_modified }

/-- One message of the gRPC Get response stream: a data fragment and an
optional Metadata submessage (HasField("metadata")). -/
structure GetRespMsg where
  data : List Nat := []
  metadata : Option ProtoMetadata := none
  deriving DecidableEq, Repr

/-- The loop of GrpcClient.get (grpc_client.py lines 186-189): append each
data of each message to the accumulator, and whenever a message bears a metadata
submessage convert it, replacing the current metadata value. -/
def grpc_get_loop : List GetRespMsg → List Nat → Metadata → List Nat × Metadata
  | [], acc, md => (acc, md)
  | m :: rest, acc, md =>
    grpc_get_loop rest (acc ++ m.data)
      (match m.metadata with
       | some pm => proto_to_metadata pm
       | none => md)

/-- GrpcClient.get (grpc_client.py lines 167-195) on a successful response
stream: starts from empty bytes and Metadata(). -/
def grpc_get (msgs : List GetRespMsg) : List Nat × Metadata :=
  grpc_get_loop msgs [] {}

/-- GrpcClient.get_stream (grpc_client.py lines 197-218) on a successful
response stream: yield each data fragment of each message, skipping falsy (empty)
fragments. -/
def grpc_get_stream (msgs : List GetRespMsg) : List (List Nat) :=
  (msgs.map (fun m => m.data)).filter (fun d => !d.isEmpty)

/-- The last metadata-bearing message of a gRPC Get stream, if any. -/
def lastMeta : List GetRespMsg → Option ProtoMetadata
  | [] => none
  | m :: rest =>
    match lastMeta rest with
    | some pm => some pm
    | none => m.metadata

/-- The outcome of one gRPC unary call: a reply, or a grpc.RpcError carrying
a status code and a details string. -/
inductive GrpcAttempt (α : Type) where
  | reply (v : α)
  | rpcError (code : GrpcStatusCode) (details : String)
  deriving DecidableEq, Repr

/-- GrpcClient.exists (grpc_client.py lines 289-309): a reply yields
ExistsResponse(exists=response.exists); a grpc.RpcError goes through
_handle_grpc_error, which always raises. -/
def grpc_exists (a : GrpcAttempt Bool) : Except ObjError ExistsResponse :=
  match a with
  | GrpcAttempt.reply b => Except.ok { exists_flag := b }
  | GrpcAttempt.rpcError c d => Except.error (grpcHandleError c d)

/-- LifecyclePolicy (models.py lines 47-74), after pydantic field parsing
and before model_post_init runs; pfx models the source field named prefix
(not a legal Lean identifier). -/
structure LifecyclePolicy where
  id : String
  pfx : String := ""
  retention_seconds : Option Int := none
  action : String
  destination_type : Option String := none
  destination_settings : List (String × String) := []
  days_after_creation : Option Int := none
  enabled : Bool := true
  deriving DecidableEq, Repr

/-- LifecyclePolicy.model_post_init (models.py lines 67-74): if
days_after_creation is given and retention_seconds is not, derive
retention_seconds = days * 86400; if neither is given, default to
30 * 86400; an explicit retention_seconds is left alone. -/
def LifecyclePolicy.post_init (p : LifecyclePolicy) : LifecyclePolicy :=
  match p.retention_seconds, p.days_after_creation with
  | none, some d => { p with retention_seconds := some (d * 86400) }
  | none, none => { p with retention_seconds := some (30 * 86400) }
  | some _, _ => p

/-- Constructing a LifecyclePolicy runs pydantic validation then
model_post_init. -/
def mkLifecyclePolicy (p : LifecyclePolicy) : LifecyclePolicy :=
  p.post_init

/-- A serialized JSON value, for modelling pydantic model_dump output. -/
inductive JValue where
  | str (s : String)
  | int (n : Int)
  | bool (b : Bool)
  | obj (kvs : List (String × String))
  | null
  deriving DecidableEq, Repr

/-- LifecyclePolicy.model_dump: the pydantic dump of the declared fields in
declaration order; days_after_creation is declared with exclude=True
(models.py line 63) and therefore never appears. -/
def LifecyclePolicy.model_dump (p : LifecyclePolicy) : List (String × JValue) :=
  [ ("id", JValue.str p.id)
  , ("prefix", JValue.str p.pfx)
  , ("retention_seconds",
      match p.retention_seconds with
      | some r => JValue.int r
      | none => JValue.null)
  , ("action", JValue.str p.action)
  , ("destination_type",
      match p.destination_type with
      | some t => JValue.str t
      | none => JValue.null)
  , ("destination_settings", JValue.obj p.destination_settings)
  , ("enabled", JValue.bool p.enabled) ]

/-- What one call through ObjectStoreClient._run_async did: the value
returned (or exception reraised) to the blocking caller, whether a worker
thread was spawned, whether that worker created its own fresh event loop,
and whether an event loop was driven on the calling context itself. -/
structure BridgeOutcome (α : Type) where
  result : Except ObjError α
  workerSpawned : Bool
  workerFreshLoop : Bool
  callerLoopDriven : Bool

/-- The capture step of the run_in_thread body (client.py lines 147-156):
the worker stores the value of the coroutine in result and a raised exception
in `exception`, both initially absent. -/
def workerCapture (coro : Except ObjError α) : Option α × Option ObjError :=
  match coro with
  | Except.ok v => (some v, none)
  | Except.error e => (none, some e)

/-- After thread.join() (client.py lines 160-164): if the worker stored an
exception, reraise it; otherwise return the stored result. The none/none
case is unreachable because the worker always stores one of the two. -/
def joinAndPropagate (cap : Option α × Option ObjError) : Except ObjError α :=
  match cap.2 with
  | some e => Except.error e
  | none =>
    match cap.1 with
    | some v => Except.ok v
    | none => Except.error (objectStoreError "worker stored no outcome" none)

/-- ObjectStoreClient._run_async (client.py lines 124-172): if an asyncio
event loop is already running on the calling context, spawn a worker thread
that creates its own fresh event loop, run the coroutine there, join, and
propagate the outcome the worker stored; otherwise drive a loop on the calling
context directly. -/
def run_async (loopRunning : Bool) (coro : Except ObjError α) : BridgeOutcome α :=
  if loopRunning then
    { result := joinAndPropagate (workerCapture coro)
    , workerSpawned := true
    , workerFreshLoop := true
    , callerLoopDriven := false }
  else
    { result := coro
    , workerSpawned := false
    , workerFreshLoop := false
    , callerLoopDriven := true }

/-- Transport schedule refuting C1: attempt 0 is answered with a 400
(Validation) response, every later attempt with a 201. -/
def c1attempts : Nat → HttpAttempt
  | 0 => HttpAttempt.response { status := 400, json := some { message := some "bad request" } }
  | _ + 1 => HttpAttempt.response { status := 201, json := some { message := some "created" } }

/-- Transport schedule for the amended-C1 witness: attempt 0 is answered
with a 404, every later attempt with a 201. -/
def c1wAttempts : Nat → HttpAttempt
  | 0 => HttpAttempt.response { status := 404 }
  | _ + 1 => HttpAttempt.response { status := 201, json := some { message := some "stored" } }

/-- A response with a status code outside the mapped set, for C2. -/
def c2resp : HttpResponse := { status := 418, text := "teapot" }

/-- A gRPC Get stream with two metadata-bearing messages, for C3. -/
def c3msgs : List GetRespMsg :=
  [ { data := [1], metadata := some { etag := "first" } }
  , { data := [2], metadata := some { etag := "second" } } ]

/-- A 500 delete response whose body message mentions "not found", for C5. -/
def c5respNF : HttpResponse :=
  { status := 500, json := some { message := some "Object not found in backend" } }

/-- A 500 delete response with an unrelated body message, for C5. -/
def c5respServer : HttpResponse :=
  { status := 500, json := some { message := some "disk failure" } }

/-- A 200 get response with no Content-Length header, for C8. -/
def c8resp : HttpResponse := { status := 200 }

/-- Flattening the chunks produced by chunksOf restores the original list. -/
theorem chunksOf_flatten {α : Type} (n : Nat) (hn : 0 < n) :
    (xs : List α) → (chunksOf n xs).flatten = xs
  | [] => by simp [chunksOf]
  | y :: ys => by
    rw [chunksOf]
    have hne : ¬ n = 0 := Nat.pos_iff_ne_zero.mp hn
    have ih := chunksOf_flatten n hn ((y :: ys).drop n)
    simp [hne, ih]
termination_by xs => xs.length
decreasing_by
  simp only [List.length_drop, List.length_cons]
  omega

/-- Every chunk produced by chunksOf is nonempty. -/
theorem chunksOf_ne_nil {α : Type} (n : Nat) (hn : 0 < n) :
    (xs : List α) → ∀ c ∈ chunksOf n xs, c ≠ []
  | [] => by simp [chunksOf]
  | y :: ys => by
    rw [chunksOf]
    have hne : ¬ n = 0 := Nat.pos_iff_ne_zero.mp hn
    have ih := chunksOf_ne_nil n hn ((y :: ys).drop n)
    simp only [hne, if_false]
    intro c hc
    rcases List.mem_cons.mp hc with h | h
    · subst h
      cases n with
      | zero => exact absurd rfl hne
      | succ m => simp
    · exact ih c h
termination_by xs => xs.length
decreasing_by
  simp only [List.length_drop, List.length_cons]
  omega

/-- Filtering out empty chunks does not change the chunk list chunksOf
produces, since none of its chunks is empty. -/
theorem filter_chunksOf {α : Type} (n : Nat) (hn : 0 < n) (xs : List α) :
    (chunksOf n xs).filter (fun c => !c.isEmpty) = chunksOf n xs := by
  apply List.filter_eq_self.mpr
  intro c hc
  have hne := chunksOf_ne_nil n hn xs c hc
  cases c with
  | nil => exact absurd rfl hne
  | cons a t => rfl

/-- Dropping empty fragments before flattening does not change the result. -/
theorem flatten_filter_isEmpty {α : Type} (l : List (List α)) :
    (l.filter (fun d => !d.isEmpty)).flatten = l.flatten := by
  induction l with
  | nil => rfl
  | cons a t ih =>
    cases a with
    | nil => simpa using ih
    | cons b bs => simp [List.filter, ih]

/-- Characterization of the GrpcClient.get loop: the bytes are the
accumulator followed by the flattened data fragments, and the metadata is the
conversion of the last metadata-bearing message, if any. -/
theorem grpc_get_loop_spec (msgs : List GetRespMsg) (acc : List Nat) (md : Metadata) :
    grpc_get_loop msgs acc md =
      (acc ++ (msgs.map (fun m => m.data)).flatten,
       match lastMeta msgs with
       | some pm => proto_to_metadata pm
       | none => md) := by
  induction msgs generalizing acc md with
  | nil => simp [grpc_get_loop, lastMeta]
  | cons m rest ih =>
    rw [grpc_get_loop, ih]
    cases hm : m.metadata with
    | none =>
      cases hl : lastMeta rest with
      | none => simp [lastMeta, hl, hm, List.append_assoc]
      | some pm => simp [lastMeta, hl, hm, List.append_assoc]
    | some pm =>
      cases hl : lastMeta rest with
      | none => simp [lastMeta, hl, hm, List.append_assoc]
      | some pm2 => simp [lastMeta, hl, hm, List.append_assoc]

/-- C1 counterexample: in the code, RestClient.put is itself wrapped in the
tenacity retry decorator, which retries on every exception kind; on a
schedule whose first attempt fails with a Validation error and whose second
attempt returns 201, put retries and returns success, instead of making
exactly one attempt and propagating the Validation error as the claim
states. -/
theorem c1_put_retries_validation :
    rest_put_once (c1attempts 0) = Except.error (validationError "bad request") ∧
    rest_put c1attempts = Except.ok { success := true, message := some "created", etag := none } :=
  ⟨rfl, rfl⟩

/-- C1 (amended): in the REST adapter, retry lives inside the adapter and is
applied to every operation, put included; a failed attempt is retried
whatever its error kind, up to 3 attempts, and the error of the third
attempt is the one reraised. -/
theorem c1_rest_put_retry (attempts : Nat → HttpAttempt) :
    (∀ v, rest_put_once (attempts 0) = Except.ok v →
      rest_put attempts = Except.ok v) ∧
    (∀ e v, rest_put_once (attempts 0) = Except.error e →
      rest_put_once (attempts 1) = Except.ok v →
      rest_put attempts = Except.ok v) ∧
    (∀ e0 e1 e2, rest_put_once (attempts 0) = Except.error e0 →
      rest_put_once (attempts 1) = Except.error e1 →
      rest_put_once (attempts 2) = Except.error e2 →
      rest_put attempts = Except.error e2) := by
  refine ⟨?_, ?_, ?_⟩ <;> intros <;>
    simp [rest_put, tenacityRetry, retryFrom, *]

/-- C1 witness: a put whose first attempt fails with NotFound and whose
second attempt returns 201 is retried to success by the adapter. -/
theorem c1_rest_put_retry_witness :
    rest_put c1wAttempts = Except.ok { success := true, message := some "stored", etag := none } :=
  (c1_rest_put_retry c1wAttempts).2.1 (objectNotFoundError "Object not found")
    { success := true, message := some "stored", etag := none } rfl rfl

/-- C2 counterexample: an HTTP 418 is not mapped to the Server kind; the
REST handler raises the base ObjectStoreError, and so does the gRPC handler
on an unmapped status code such as UNIMPLEMENTED. -/
theorem c2_unmapped_not_server :
    (restHandleError c2resp).kind ≠ ErrKind.server ∧
    (grpcHandleError GrpcStatusCode.UNIMPLEMENTED "nope").kind ≠ ErrKind.server :=
  ⟨by decide, by decide⟩

/-- C2 (amended): an unmapped transport signal falls through to the base
ObjectStoreError kind (not ServerError), whose message embeds the raw
transport message behind a prefixed status description: "HTTP {status}:
{text}" for the REST and QUIC adapters, "gRPC error: {details}" for the gRPC
adapter. -/
theorem c2_unmapped_fallthrough (r : HttpResponse)
    (h404 : r.status ≠ 404) (h401 : r.status ≠ 401) (h400 : r.status ≠ 400)
    (h500 : r.status < 500) :
    restHandleError r =
      objectStoreError ("HTTP " ++ toString r.status ++ ": " ++ r.text) (some r.status) ∧
    quicHandleError r =
      objectStoreError ("HTTP " ++ toString r.status ++ ": " ++ r.text) (some r.status) ∧
    (∀ c d, c ≠ GrpcStatusCode.NOT_FOUND → c ≠ GrpcStatusCode.DEADLINE_EXCEEDED →
      c ≠ GrpcStatusCode.UNAVAILABLE → c ≠ GrpcStatusCode.INTERNAL →
      grpcHandleError c d = objectStoreError ("gRPC error: " ++ d) none) := by
  refine ⟨?_, ?_, ?_⟩
  · simp [restHandleError, h404, h401, h400, Nat.not_le.mpr h500]
  · simp [quicHandleError, h404, h401, h400, Nat.not_le.mpr h500]
  · intro c d h1 h2 h3 h4
    cases c <;> first
      | rfl
      | exact absurd rfl h1
      | exact absurd rfl h2
      | exact absurd rfl h3
      | exact absurd rfl h4

/-- C2 witness: a 302 falls through to the base kind with the wrapped
message, as does the gRPC CANCELLED status. -/
theorem c2_unmapped_fallthrough_witness :
    restHandleError { status := 302, text := "moved" } =
      objectStoreError ("HTTP " ++ toString (302 : Nat) ++ ": " ++ "moved") (some 302) ∧
    quicHandleError { status := 302, text := "moved" } =
      objectStoreError ("HTTP " ++ toString (302 : Nat) ++ ": " ++ "moved") (some 302) ∧
    (∀ c d, c ≠ GrpcStatusCode.NOT_FOUND → c ≠ GrpcStatusCode.DEADLINE_EXCEEDED →
      c ≠ GrpcStatusCode.UNAVAILABLE → c ≠ GrpcStatusCode.INTERNAL →
      grpcHandleError c d = objectStoreError ("gRPC error: " ++ d) none) :=
  c2_unmapped_fallthrough { status := 302, text := "moved" }
    (by decide) (by decide) (by decide) (by decide)

/-- C3 counterexample: on a stream whose two messages both bear metadata,
GrpcClient.get returns the metadata of the second (last) message, not of the
first as the claim states; the byte concatenation is as claimed. -/
theorem c3_last_metadata_wins :
    (grpc_get c3msgs).1 = [1, 2] ∧
    (grpc_get c3msgs).2 = proto_to_metadata { etag := "second" } ∧
    (grpc_get c3msgs).2 ≠ proto_to_metadata { etag := "first" } :=
  ⟨rfl, rfl, by decide⟩

/-- C3 (amended): GrpcClient.get returns the concatenation of every data
fragment in arrival order, and the metadata converted from the last
metadata-bearing response message (each later metadata-bearing message
replaces the previous one); with no metadata-bearing message it returns an
empty Metadata. -/
theorem c3_grpc_get_concat_lastmeta (msgs : List GetRespMsg) :
    (grpc_get msgs).1 = (msgs.map (fun m => m.data)).flatten ∧
    (grpc_get msgs).2 =
      (match lastMeta msgs with
       | some pm => proto_to_metadata pm
       | none => {}) := by
  rw [grpc_get, grpc_get_loop_spec]
  exact ⟨by simp, rfl⟩

/-- C4 (confirmed): a LifecyclePolicy constructed without an explicit
retention_seconds derives it as days_after_creation * 86400 when an
age-in-days value is given and defaults it to 2592000 otherwise; an explicit
retention_seconds is never overridden; and the serialized form never
contains the days_after_creation key. -/
theorem c4_lifecycle_retention (p : LifecyclePolicy) :
    (∀ d, p.retention_seconds = none → p.days_after_creation = some d →
      (mkLifecyclePolicy p).retention_seconds = some (d * 86400)) ∧
    (p.retention_seconds = none → p.days_after_creation = none →
      (mkLifecyclePolicy p).retention_seconds = some 2592000) ∧
    (∀ r, p.retention_seconds = some r →
      (mkLifecyclePolicy p).retention_seconds = some r) ∧
    "days_after_creation" ∉ ((mkLifecyclePolicy p).model_dump.map Prod.fst) := by
  refine ⟨?_, ?_, ?_, ?_⟩
  · intro d hr hd
    simp [mkLifecyclePolicy, LifecyclePolicy.post_init, hr, hd]
  · intro hr hd
    simp [mkLifecyclePolicy, LifecyclePolicy.post_init, hr, hd]
  · intro r hr
    simp [mkLifecyclePolicy, LifecyclePolicy.post_init, hr]
  · have hkeys : (mkLifecyclePolicy p).model_dump.map Prod.fst =
        ["id", "prefix", "retention_seconds", "action",
         "destination_type", "destination_settings", "enabled"] := rfl
    rw [hkeys]
    decide

/-- C4 witness: 30 days and no explicit retention yields 2592000 seconds. -/
theorem c4_lifecycle_retention_witness :
    (mkLifecyclePolicy
      { id := "p1", action := "delete", days_after_creation := some 30 }).retention_seconds =
      some 2592000 := by
  have h := (c4_lifecycle_retention
    { id := "p1", action := "delete", days_after_creation := some 30 }).1 30 rfl rfl
  norm_num at h
  exact h

/-- C5 counterexample: RestClient.delete does rewrite a server-reported
outcome based on the response content: a 500 whose JSON message mentions
"not found" is surfaced as ObjectNotFoundError although _handle_error would
map the same response to ServerError, while a 500 with an unrelated message
is surfaced as ServerError. -/
theorem c5_delete_rewrites_500 :
    rest_delete_once (HttpAttempt.response c5respNF) =
      Except.error (objectNotFoundError "Object not found") ∧
    restHandleError c5respNF = serverError "Object not found in backend" (some 500) ∧
    rest_delete_once (HttpAttempt.response c5respServer) =
      Except.error (serverError "disk failure" (some 500)) :=
  ⟨rfl, rfl, rfl⟩

/-- C5 (amended): delete passes the 200 success and the 404 NotFound
outcomes through unmodified, but a 500 whose lowercased JSON message
contains "not found" or "does not exist" is rewritten by the adapter into a
NotFound error; any other 500 surfaces as a Server error. -/
theorem c5_delete_passthrough (r : HttpResponse) :
    (r.status = 200 → rest_delete_once (HttpAttempt.response r) =
      Except.ok { success := true
                , message := some ((r.json.getD {}).message.getD "Object deleted successfully") }) ∧
    (r.status = 404 → rest_delete_once (HttpAttempt.response r) =
      Except.error (objectNotFoundError "Object not found")) ∧
    (r.status = 500 → deleteLooksNotFound r = true →
      rest_delete_once (HttpAttempt.response r) =
        Except.error (objectNotFoundError "Object not found")) ∧
    (r.status = 500 → deleteLooksNotFound r = false →
      rest_delete_once (HttpAttempt.response r) =
        Except.error (serverError (errMessage r "Server error") (some 500))) := by
  refine ⟨?_, ?_, ?_, ?_⟩
  · intro h
    simp [rest_delete_once, h]
  · intro h
    simp [rest_delete_once, h, restHandleError]
  · intro h hl
    simp [rest_delete_once, h, hl]
  · intro h hl
    simp [rest_delete_once, h, hl, restHandleError]

/-- C5 witness: a 404 delete response surfaces as NotFound unmodified. -/
theorem c5_delete_passthrough_witness :
    rest_delete_once (HttpAttempt.response { status := 404 }) =
      Except.error (objectNotFoundError "Object not found") :=
  (c5_delete_passthrough { status := 404 }).2.1 rfl

/-- C6 counterexample: the gRPC adapter routes every grpc.RpcError through
_handle_grpc_error, so an Exists call answered with the NOT_FOUND status
raises ObjectNotFoundError — exists can surface a NotFound error, contrary
to the claim. -/
theorem c6_grpc_exists_notfound :
    grpc_exists (GrpcAttempt.rpcError GrpcStatusCode.NOT_FOUND "missing") =
      Except.error (objectNotFoundError "missing") ∧
    (objectNotFoundError "missing").kind = ErrKind.notFound :=
  ⟨rfl, rfl⟩

/-- C6 (amended): the REST and QUIC exists return a boolean flag for every
response and surface only Timeout and Connection failures, but the gRPC
exists maps any RPC error through the shared handler and can therefore
surface NotFound, Timeout, Connection, Server or base errors according to
the status code. -/
theorem c6_exists_error_kinds :
    (∀ r : HttpResponse, rest_exists_once (HttpAttempt.response r) =
      Except.ok { exists_flag := r.status == 200 }) ∧
    (∀ a e, rest_exists_once a = Except.error e →
      e.kind = ErrKind.timeout ∨ e.kind = ErrKind.connection) ∧
    (∀ r : HttpResponse, quic_exists_once (HttpAttempt.response r) =
      Except.ok { exists_flag := r.status == 200 }) ∧
    (∀ a e, quic_exists_once a = Except.error e →
      e.kind = ErrKind.timeout ∨ e.kind = ErrKind.connection) ∧
    (∀ c d, grpc_exists (GrpcAttempt.rpcError c d) = Except.error (grpcHandleError c d)) := by
  refine ⟨fun r => rfl, ?_, fun r => rfl, ?_, fun c d => rfl⟩
  · intro a e h
    cases a with
    | response r => simp [rest_exists_once] at h
    | timedOut =>
      simp only [rest_exists_once, Except.error.injEq] at h
      subst h
      exact Or.inl rfl
    | connFailed m =>
      simp only [rest_exists_once, Except.error.injEq] at h
      subst h
      exact Or.inr rfl
  · intro a e h
    cases a with
    | response r => simp [quic_exists_once] at h
    | timedOut =>
      simp only [quic_exists_once, Except.error.injEq] at h
      subst h
      exact Or.inl rfl
    | connFailed m =>
      simp only [quic_exists_once, Except.error.injEq] at h
      subst h
      exact Or.inr rfl

/-- C6 witness: a timed-out REST exists surfaces a Timeout-kind error. -/
theorem c6_exists_error_kinds_witness :
    (timeoutError "Request timed out").kind = ErrKind.timeout ∨
    (timeoutError "Request timed out").kind = ErrKind.connection :=
  c6_exists_error_kinds.2.1 HttpAttempt.timedOut (timeoutError "Request timed out") rfl

/-- C7 (confirmed): for each adapter, concatenating the chunks yielded by the
streaming download equals the byte content returned by get on the same
successful server response, for any body including the empty one. -/
theorem c7_stream_concat (r q : HttpResponse) (msgs : List GetRespMsg)
    (hr : r.status = 200) (hq : q.status = 200) :
    (rest_get_stream (HttpAttempt.response r)).map List.flatten =
      (rest_get (HttpAttempt.response r)).map Prod.fst ∧
    (quic_get_stream (HttpAttempt.response q)).map List.flatten =
      (quic_get (HttpAttempt.response q)).map Prod.fst ∧
    (grpc_get_stream msgs).flatten = (grpc_get msgs).1 := by
  refine ⟨?_, ?_, ?_⟩
  · simp [rest_get_stream, rest_get, hr, Except.map,
      filter_chunksOf 8192 (by decide), chunksOf_flatten 8192 (by decide)]
  · simp [quic_get_stream, quic_get, hq, Except.map,
      filter_chunksOf 8192 (by decide), chunksOf_flatten 8192 (by decide)]
  · rw [grpc_get, grpc_get_loop_spec, grpc_get_stream]
    simp [flatten_filter_isEmpty]

/-- C7 witness: concrete two-byte and empty bodies and a one-message gRPC
stream satisfy the stream/get agreement. -/
theorem c7_stream_concat_witness :
    (rest_get_stream (HttpAttempt.response { status := 200, body := [7, 8] })).map List.flatten =
      (rest_get (HttpAttempt.response { status := 200, body := [7, 8] })).map Prod.fst ∧
    (quic_get_stream (HttpAttempt.response { status := 200 })).map List.flatten =
      (quic_get (HttpAttempt.response { status := 200 })).map Prod.fst ∧
    (grpc_get_stream [{ data := [9] }]).flatten = (grpc_get [{ data := [9] }]).1 :=
  c7_stream_concat { status := 200, body := [7, 8] } { status := 200 }
    [{ data := [9] }] rfl rfl

/-- C8 counterexample: a 200 response with no Content-Length header yields
metadata whose size is the sentinel some 0, not the absent value none, in
both the REST and QUIC get. -/
theorem c8_size_zero_sentinel :
    rest_get (HttpAttempt.response c8resp) = Except.ok ([], { size := some 0 }) ∧
    quic_get (HttpAttempt.response c8resp) = Except.ok ([], { size := some 0 }) ∧
    some (0 : Int) ≠ (none : Option Int) :=
  ⟨rfl, rfl, by decide⟩

/-- C8 (amended): on a 200 response with no Content-Length header the REST
and QUIC get keep absent content_type, content_encoding and etag as absent,
but report size as the sentinel 0 instead of unknown. -/
theorem c8_absent_fields (r : HttpResponse)
    (h : r.status = 200) (habs : r.contentLength = none) :
    ∃ md : Metadata,
      rest_get (HttpAttempt.response r) = Except.ok (r.body, md) ∧
      quic_get (HttpAttempt.response r) = Except.ok (r.body, md) ∧
      md.size = some 0 ∧
      md.content_type = r.contentType ∧
      md.content_encoding = none ∧
      md.etag = r.etag := by
  refine ⟨{ content_type := r.contentType, size := some 0, etag := r.etag },
    ?_, ?_, rfl, rfl, rfl, rfl⟩
  · simp [rest_get, h, habs]
  · simp [quic_get, h, habs]

/-- C8 witness: the concrete headerless 200 response instantiates the
amended statement. -/
theorem c8_absent_fields_witness :
    ∃ md : Metadata,
      rest_get (HttpAttempt.response c8resp) = Except.ok (c8resp.body, md) ∧
      quic_get (HttpAttempt.response c8resp) = Except.ok (c8resp.body, md) ∧
      md.size = some 0 ∧
      md.content_type = c8resp.contentType ∧
      md.content_encoding = none ∧
      md.etag = c8resp.etag :=
  c8_absent_fields c8resp rfl rfl

/-- C9 (confirmed): when an event loop is already running on the calling
context, the bridge does not drive a loop on that context; it spawns a
worker with its own fresh loop, joins it, and returns the result of the
coroutine or reraises the exception raised inside the worker. -/
theorem c9_bridge_offload (α : Type) (coro : Except ObjError α) :
    (run_async true coro).callerLoopDriven = false ∧
    (run_async true coro).workerSpawned = true ∧
    (run_async true coro).workerFreshLoop = true ∧
    (run_async true coro).result = coro := by
  refine ⟨rfl, rfl, rfl, ?_⟩
  cases coro <;> rfl

/-- C10 (confirmed): the REST and QUIC exists report exists=false for every
non-200 response status, server errors included, without raising. -/
theorem c10_exists_false_non200 (r : HttpResponse) (h : r.status ≠ 200) :
    rest_exists_once (HttpAttempt.response r) = Except.ok { exists_flag := false } ∧
    quic_exists_once (HttpAttempt.response r) = Except.ok { exists_flag := false } := by
  constructor <;> simp [rest_exists_once, quic_exists_once, h]

/-- C10 witness: a 500 response yields exists=false on both adapters. -/
theorem c10_exists_false_non200_witness :
    rest_exists_once (HttpAttempt.response { status := 500 }) =
      Except.ok { exists_flag := false } ∧
    quic_exists_once (HttpAttempt.response { status := 500 }) =
      Except.ok { exists_flag := false } :=
  c10_exists_false_non200 { status := 500 } (by decide)

end ObjStore
